import Mathlib

/-!
Verification development for the courier messaging gateway excerpt.

The development shallowly embeds the code of the repository excerpt:

- the Redis task-queue producers of backends/rapidpro/task.go
  (queueTask and queueMailroomTask), over an explicit Redis command
  trace and an idealized Redis store with MULTI and EXEC semantics;
- the Chat API channel handler, in both of its variants present in the
  excerpt: the form-encoded variant of handlers/chatapi/chatapi.go
  (namespace CA below) and the JSON variant of the unnamed source file
  (namespace P0 below), covering receiveMessage and SendMsg.

Machine floats of the Go source (the epoch time in seconds) are
idealized as exact rationals; the %.5f rendering of scores is not
modelled, scores are carried as rationals. JSON documents are modelled
structurally as JValue trees instead of byte strings; field order
follows the Go struct order used by json.Marshal.
-/

/-- Structural model of a marshalled JSON document. Field order of an
object mirrors the order json.Marshal derives from the Go struct. -/
inductive JValue where
  | str (s : String)
  | int (n : Int)
  | obj (fields : List (String × JValue))
  | arr (elems : List JValue)

/-- Redis commands issued by the task-queue producers. The celeryPush
constructor is modelled from the spec: the celery package of the
repository (not part of the excerpt) pushes an empty-body wake-up task
onto the Celery-compatible broker list named by the queue name. -/
inductive RedisCmd where
  | multi
  | zadd (key : String) (score : ℚ) (member : JValue)
  | zincrby (key : String) (incr : Int) (member : String)
  | rpush (key : String) (member : JValue)
  | celeryPush (queueName : String) (taskName : String)
  | exec

/-- Idealized Redis store touched by the enqueue transactions. Sorted
sets, per-contact lists, active-org sets and broker lists are kept in
separate fields; the code only ever touches the active sets through
zincrby and the broker lists through the Celery push, so no key ever
aliases across fields. -/
structure RedisStore where
  zsets : String → List (ℚ × JValue)
  activeOrgs : String → List String
  contactLists : String → List JValue
  brokers : String → List String

/-- Ensure membership of a member in an active-org set: zincrby by zero
inserts the member when absent and otherwise changes nothing. -/
def ensureActive (l : List String) (m : String) : List String :=
  if l.contains m then l else l ++ [m]

/-- Effect of a single buffered command on the store. multi and exec
are markers and have no direct effect. A zadd is modelled as appending
the scored member to the sorted set. -/
def applyCmd (st : RedisStore) : RedisCmd → RedisStore
  | .multi => st
  | .exec => st
  | .zadd k s m =>
      { st with zsets := fun k' => if k' = k then st.zsets k ++ [(s, m)] else st.zsets k' }
  | .zincrby k _ m =>
      { st with activeOrgs := fun k' => if k' = k then ensureActive (st.activeOrgs k) m else st.activeOrgs k' }
  | .rpush k v =>
      { st with contactLists := fun k' => if k' = k then st.contactLists k ++ [v] else st.contactLists k' }
  | .celeryPush q t =>
      { st with brokers := fun k' => if k' = q then st.brokers q ++ [t] else st.brokers k' }

/-- MULTI and EXEC semantics: the buffered commands are applied
atomically at EXEC; when the transaction fails nothing is applied and
the store is untouched. -/
def execTxn (st : RedisStore) (cmds : List RedisCmd) (failed : Bool) : RedisStore :=
  if failed then st else cmds.foldl applyCmd st

/-- Number of exec markers in a command trace. -/
def countExec (cmds : List RedisCmd) : Nat :=
  cmds.countP fun c => match c with | .exec => true | _ => false

/-- Number of multi markers in a command trace. -/
def countMulti (cmds : List RedisCmd) : Nat :=
  cmds.countP fun c => match c with | .multi => true | _ => false

/-- Modelled from the spec: celery.QueueEmptyTask of the repository
celery package (missing from the excerpt) pushes a wake-up empty-body
Celery task onto the broker list named by the queue name. -/
def celeryQueueEmptyTask (queueName : String) (taskName : String) : RedisCmd :=
  RedisCmd.celeryPush queueName taskName

/-- Embedding of queueTask of backends/rapidpro/task.go: the command
sequence sent on the Redis connection for one legacy enqueue. The body
is taken as its marshalled JSON document; now is the UTC epoch time in
seconds, idealized as a rational. -/
def queueTask (queueName : String) (taskName : String) (orgID : Int) (subQueue : String)
    (bodyJSON : JValue) (now : ℚ) : List RedisCmd :=
  let cmds := [RedisCmd.multi]
  let cmds := if subQueue ≠ "" then cmds ++ [RedisCmd.zadd subQueue now bodyJSON] else cmds
  let cmds := cmds ++ [RedisCmd.zadd (taskName ++ ":" ++ toString orgID) (now - 10000000) bodyJSON]
  let cmds := cmds ++ [RedisCmd.zincrby (taskName ++ ":active") 0 (toString orgID)]
  let cmds := cmds ++ [celeryQueueEmptyTask queueName taskName]
  cmds ++ [RedisCmd.exec]

/-- Embedding of the mrTask envelope of backends/rapidpro/task.go as
marshalled by json.Marshal: fields type, org_id, task, queued_on in
struct order. The queued_on timestamp rendering is kept as an abstract
string parameter. -/
def mrTask (ty : String) (orgID : Int) (task : JValue) (queuedOn : String) : JValue :=
  JValue.obj [("type", JValue.str ty), ("org_id", JValue.int orgID),
              ("task", task), ("queued_on", JValue.str queuedOn)]

/-- Embedding of queueMailroomTask of backends/rapidpro/task.go: the
command sequence sent for one mailroom enqueue. The three time.Now
calls of the source are kept as separate parameters: the two envelope
timestamps and the rational epoch time used for the score. -/
def queueMailroomTask (taskType : String) (orgID : Int) (contactID : Int) (body : JValue)
    (queuedOnEvent : String) (queuedOnContact : String) (now : ℚ) : List RedisCmd :=
  let eventJSON := mrTask taskType orgID body queuedOnEvent
  let contactJSON := mrTask "handle_contact_event" orgID
      (JValue.obj [("contact_id", JValue.int contactID)]) queuedOnContact
  [RedisCmd.multi,
   RedisCmd.rpush ("c:" ++ toString orgID ++ ":" ++ toString contactID) eventJSON,
   RedisCmd.zadd ("handler:" ++ toString orgID) (now - 10000000) contactJSON,
   RedisCmd.zincrby "handler:active" 0 (toString orgID),
   RedisCmd.exec]

theorem ensureActive_contains (l : List String) (m : String) :
    (ensureActive l m).contains m = true := by
  unfold ensureActive
  by_cases h : m ∈ l
  · simp [h]
  · simp [h]

/-- Claim C2: a legacy enqueue via queueTask issues, inside exactly one
MULTI and EXEC transaction, the conditional sub-queue ZADD with score
now, the ZADD of the body JSON onto the key taskName:orgID with score
now minus 10,000,000, the ZINCRBY by zero touching orgID in the key
taskName:active, and the Celery wake-up push onto queueName; on
transaction failure nothing is visible. Scores are idealized rationals;
the %.5f string rendering of the Go source is not modelled. The
hypothesis rules out the degenerate aliasing of the sub-queue key with
the per-org key. -/
theorem c2_queueTask_transaction
    (queueName taskName : String) (orgID : Int) (subQueue : String)
    (bodyJSON : JValue) (now : ℚ) (st : RedisStore)
    (hsub : subQueue = "" ∨ subQueue ≠ taskName ++ ":" ++ toString orgID) :
    queueTask queueName taskName orgID subQueue bodyJSON now
      = [RedisCmd.multi]
        ++ (if subQueue = "" then [] else [RedisCmd.zadd subQueue now bodyJSON])
        ++ [RedisCmd.zadd (taskName ++ ":" ++ toString orgID) (now - 10000000) bodyJSON,
            RedisCmd.zincrby (taskName ++ ":active") 0 (toString orgID),
            RedisCmd.celeryPush queueName taskName,
            RedisCmd.exec]
  ∧ countMulti (queueTask queueName taskName orgID subQueue bodyJSON now) = 1
  ∧ countExec (queueTask queueName taskName orgID subQueue bodyJSON now) = 1
  ∧ execTxn st (queueTask queueName taskName orgID subQueue bodyJSON now) true = st
  ∧ (execTxn st (queueTask queueName taskName orgID subQueue bodyJSON now) false).zsets
        (taskName ++ ":" ++ toString orgID)
      = st.zsets (taskName ++ ":" ++ toString orgID) ++ [(now - 10000000, bodyJSON)]
  ∧ (subQueue ≠ "" →
      (execTxn st (queueTask queueName taskName orgID subQueue bodyJSON now) false).zsets subQueue
        = st.zsets subQueue ++ [(now, bodyJSON)])
  ∧ (execTxn st (queueTask queueName taskName orgID subQueue bodyJSON now) false).activeOrgs
        (taskName ++ ":active")
      = ensureActive (st.activeOrgs (taskName ++ ":active")) (toString orgID)
  ∧ (execTxn st (queueTask queueName taskName orgID subQueue bodyJSON now) false).brokers queueName
      = st.brokers queueName ++ [taskName] := by
  rcases hsub with h | h
  · subst h
    refine ⟨?_, ?_, ?_, ?_, ?_, ?_, ?_, ?_⟩ <;>
      simp [queueTask, celeryQueueEmptyTask, countMulti, countExec, execTxn, applyCmd]
  · by_cases he : subQueue = ""
    · subst he
      refine ⟨?_, ?_, ?_, ?_, ?_, ?_, ?_, ?_⟩ <;>
        simp [queueTask, celeryQueueEmptyTask, countMulti, countExec, execTxn, applyCmd]
    · refine ⟨?_, ?_, ?_, ?_, ?_, ?_, ?_, ?_⟩ <;>
        simp [queueTask, celeryQueueEmptyTask, countMulti, countExec, execTxn, applyCmd,
          he, h, Ne.symm h]

/-- Empty Redis store used by concrete instances. -/
def emptyRedisStore : RedisStore :=
  { zsets := fun _ => [], activeOrgs := fun _ => [],
    contactLists := fun _ => [], brokers := fun _ => [] }

/-- Witness for claim C2: the transaction theorem applied at a concrete
enqueue with no sub-queue. -/
theorem c2_queueTask_transaction_witness :
    (("" : String) = "" ∨ ("" : String) ≠ "handle_event_task" ++ ":" ++ toString (5 : Int))
  ∧ (queueTask "handler" "handle_event_task" 5 "" (JValue.obj []) 100
      = [RedisCmd.multi]
        ++ (if ("" : String) = "" then [] else [RedisCmd.zadd "" 100 (JValue.obj [])])
        ++ [RedisCmd.zadd ("handle_event_task" ++ ":" ++ toString (5 : Int)) (100 - 10000000) (JValue.obj []),
            RedisCmd.zincrby ("handle_event_task" ++ ":active") 0 (toString (5 : Int)),
            RedisCmd.celeryPush "handler" "handle_event_task",
            RedisCmd.exec]
  ∧ countMulti (queueTask "handler" "handle_event_task" 5 "" (JValue.obj []) 100) = 1
  ∧ countExec (queueTask "handler" "handle_event_task" 5 "" (JValue.obj []) 100) = 1
  ∧ execTxn emptyRedisStore (queueTask "handler" "handle_event_task" 5 "" (JValue.obj []) 100) true
      = emptyRedisStore
  ∧ (execTxn emptyRedisStore (queueTask "handler" "handle_event_task" 5 "" (JValue.obj []) 100) false).zsets
        ("handle_event_task" ++ ":" ++ toString (5 : Int))
      = emptyRedisStore.zsets ("handle_event_task" ++ ":" ++ toString (5 : Int)) ++ [(100 - 10000000, JValue.obj [])]
  ∧ (("" : String) ≠ "" →
      (execTxn emptyRedisStore (queueTask "handler" "handle_event_task" 5 "" (JValue.obj []) 100) false).zsets ""
        = emptyRedisStore.zsets "" ++ [(100, JValue.obj [])])
  ∧ (execTxn emptyRedisStore (queueTask "handler" "handle_event_task" 5 "" (JValue.obj []) 100) false).activeOrgs
        ("handle_event_task" ++ ":active")
      = ensureActive (emptyRedisStore.activeOrgs ("handle_event_task" ++ ":active")) (toString (5 : Int))
  ∧ (execTxn emptyRedisStore (queueTask "handler" "handle_event_task" 5 "" (JValue.obj []) 100) false).brokers "handler"
      = emptyRedisStore.brokers "handler" ++ ["handle_event_task"]) :=
  ⟨Or.inl rfl,
   c2_queueTask_transaction "handler" "handle_event_task" 5 "" (JValue.obj []) 100
     emptyRedisStore (Or.inl rfl)⟩

/-- Claim C3: a mailroom enqueue via queueMailroomTask issues, inside
one MULTI and EXEC transaction, the RPUSH of the event-task envelope
with fields type, org_id, task and queued_on onto the per-contact list
c:orgID:contactID, the ZADD of the contact-task envelope of type
handle_contact_event carrying the contact id onto handler:orgID with
score now minus 10,000,000, and the ZINCRBY by zero marking the org
active in handler:active. Scores are idealized rationals; the %.5f
rendering is not modelled. -/
theorem c3_queueMailroomTask_transaction
    (taskType : String) (orgID contactID : Int) (body : JValue)
    (qe qc : String) (now : ℚ) (st : RedisStore) :
    queueMailroomTask taskType orgID contactID body qe qc now
      = [RedisCmd.multi,
         RedisCmd.rpush ("c:" ++ toString orgID ++ ":" ++ toString contactID)
           (JValue.obj [("type", JValue.str taskType), ("org_id", JValue.int orgID),
                        ("task", body), ("queued_on", JValue.str qe)]),
         RedisCmd.zadd ("handler:" ++ toString orgID) (now - 10000000)
           (JValue.obj [("type", JValue.str "handle_contact_event"), ("org_id", JValue.int orgID),
                        ("task", JValue.obj [("contact_id", JValue.int contactID)]),
                        ("queued_on", JValue.str qc)]),
         RedisCmd.zincrby "handler:active" 0 (toString orgID),
         RedisCmd.exec]
  ∧ countMulti (queueMailroomTask taskType orgID contactID body qe qc now) = 1
  ∧ countExec (queueMailroomTask taskType orgID contactID body qe qc now) = 1
  ∧ execTxn st (queueMailroomTask taskType orgID contactID body qe qc now) true = st
  ∧ (execTxn st (queueMailroomTask taskType orgID contactID body qe qc now) false).contactLists
        ("c:" ++ toString orgID ++ ":" ++ toString contactID)
      = st.contactLists ("c:" ++ toString orgID ++ ":" ++ toString contactID)
        ++ [JValue.obj [("type", JValue.str taskType), ("org_id", JValue.int orgID),
                        ("task", body), ("queued_on", JValue.str qe)]]
  ∧ (execTxn st (queueMailroomTask taskType orgID contactID body qe qc now) false).zsets
        ("handler:" ++ toString orgID)
      = st.zsets ("handler:" ++ toString orgID)
        ++ [(now - 10000000,
             JValue.obj [("type", JValue.str "handle_contact_event"), ("org_id", JValue.int orgID),
                         ("task", JValue.obj [("contact_id", JValue.int contactID)]),
                         ("queued_on", JValue.str qc)])]
  ∧ ((execTxn st (queueMailroomTask taskType orgID contactID body qe qc now) false).activeOrgs
        "handler:active").contains (toString orgID) = true := by
  refine ⟨rfl, rfl, rfl, rfl, ?_, ?_, ?_⟩
  · simp [queueMailroomTask, mrTask, execTxn, applyCmd]
  · simp [queueMailroomTask, mrTask, execTxn, applyCmd]
  · simp only [queueMailroomTask, mrTask, execTxn, applyCmd, Bool.false_eq_true,
      if_false, List.foldl_cons, List.foldl_nil]
    exact ensureActive_contains _ _

/-- Canonical message status values of the courier data model. -/
inductive MsgStatusVal where
  | pending
  | queued
  | wired
  | sent
  | delivered
  | errored
  | failed
deriving DecidableEq

/-- A channel configuration value as seen through ConfigForKey: a
string, a present value of some other type, or an absent key. -/
inductive ConfigValue where
  | str (s : String)
  | notStr
  | absent
deriving DecidableEq

/-- ConfigForKey with default empty string followed by the Go string
type assertion: an absent key yields the empty default, a non-string
value fails the assertion. -/
def configStringValue : ConfigValue → Option String
  | .str s => some s
  | .absent => some ""
  | .notStr => none

/-- An outbound attachment, already split into its media type and URL
as by handlers.SplitAttachment. -/
structure Attachment where
  mediaType : String
  url : String
deriving DecidableEq

/-- Characters before the first occurrence of a separator character,
or the whole list when the separator does not occur. -/
def beforeChar (sep : Char) : List Char → List Char
  | [] => []
  | c :: cs => if c = sep then [] else c :: beforeChar sep cs

/-- Major media type: the Go source computes strings.Split(mediaType, "/")[0],
the leading segment of the media type before the first slash. -/
def mediaKind (a : Attachment) : String :=
  String.mk (beforeChar '/' a.mediaType.data)

/-- Descriptor of one HTTP part actually sent by SendMsg: the text part
or a media part with its kind, URL and caption. The reply-markup field
of the form is not observed by any claim and is omitted. -/
inductive SentPart where
  | text (body : String)
  | media (kind : String) (url : String) (caption : String)
deriving DecidableEq

/-- The mutable outbound message status as far as SendMsg touches it:
its status value and external ID. -/
structure MsgStatusRec where
  status : MsgStatusVal
  externalID : String
deriving DecidableEq

/-- State threaded through the part-sending loop of SendMsg: the
current external ID and error flag of the status, the HTTP parts sent
so far, and the remaining provider responses. -/
structure LoopState (ρ : Type) where
  extID : String
  hasError : Bool
  parts : List SentPart
  responses : List ρ

/-- Consume the next provider response; an exhausted response list
behaves as the default failing response. -/
def takeResp {ρ : Type} (dflt : ρ) : List ρ → ρ × List ρ
  | [] => (dflt, [])
  | r :: rest => (r, rest)

/-- The response consumed by the HTTP call at a given index. -/
def peek {ρ : Type} (dflt : ρ) (rs : List ρ) (i : Nat) : ρ :=
  (takeResp dflt (rs.drop i)).1

/-- One iteration of the attachment loop of SendMsg, generic in the
response type: a recognized media kind performs an HTTP send whose
outcome overwrites the external ID and the error flag, an unrecognized
kind only sets the error flag. -/
def sendAttachment {ρ : Type} (outcome : ρ → Option String) (dflt : ρ) (isRec : String → Bool)
    (caption : String) (s : LoopState ρ) (a : Attachment) : LoopState ρ :=
  let k := mediaKind a
  if isRec k then
    { extID := (outcome (peek dflt s.responses 0)).getD "",
      hasError := (outcome (peek dflt s.responses 0)).isNone,
      parts := s.parts ++ [SentPart.media k a.url caption],
      responses := s.responses.drop 1 }
  else
    { s with hasError := true }

/-- An outbound message as SendMsg reads it. Quick replies only shape
the unobserved reply-markup form field and the URN path only the form
destination, so neither influences any claimed behavior. -/
structure OutMsg where
  text : String
  attachments : List Attachment
  quickReplies : List String
  urnPath : String
deriving DecidableEq

/-- Common part-sending body shared verbatim by the two SendMsg
variants of the excerpt, generic in the provider response type, the
per-part outcome extractor and the set of recognized media kinds: the
caption rule for a lone attachment, the errored-until-proven status,
the optional text part, and the attachment loop. -/
def sendCore {ρ : Type} (outcome : ρ → Option String) (dflt : ρ) (isRec : String → Bool)
    (msg : OutMsg) (rs : List ρ) : Except String MsgStatusRec × List SentPart :=
  let caption := if msg.attachments.length = 1 then msg.text else ""
  let s0 : LoopState ρ := { extID := "", hasError := true, parts := [], responses := rs }
  let s1 :=
    if msg.text ≠ "" ∧ caption = "" then
      ({ extID := (outcome (peek dflt s0.responses 0)).getD "",
         hasError := (outcome (peek dflt s0.responses 0)).isNone,
         parts := s0.parts ++ [SentPart.text msg.text],
         responses := s0.responses.drop 1 } : LoopState ρ)
    else s0
  let s2 := msg.attachments.foldl (sendAttachment outcome dflt isRec caption) s1
  (Except.ok { status := if s2.hasError then MsgStatusVal.errored else MsgStatusVal.wired,
               externalID := s2.extID },
   s2.parts)

namespace CA

/-- Provider response of the form-encoded variant: the ok flag of the
body and the optional result.message_id. A transport error or a
missing ok flag is collapsed into ok being false. -/
structure TGResponse where
  ok : Bool
  messageID : Option Int
deriving DecidableEq

/-- Outcome of sendMsgPart of handlers/chatapi/chatapi.go: an external
ID exactly when the body is ok and carries result.message_id. -/
def partOutcome (r : TGResponse) : Option String :=
  if r.ok then r.messageID.map (fun i => toString i) else none

/-- Default failing response used when the response list is exhausted. -/
def dfltResp : TGResponse := { ok := false, messageID := none }

/-- Media kinds with a dedicated send path in the form-encoded variant. -/
def caRec (k : String) : Bool :=
  k = "image" || k = "video" || k = "audio"

/-- Embedding of SendMsg of handlers/chatapi/chatapi.go. Returns the
status-or-error result together with the list of HTTP parts sent. The
error flag starts true, each part overwrites it, and the final status
is wired exactly when the flag ends false. -/
def SendMsg (authConf : ConfigValue) (msg : OutMsg) (rs : List TGResponse) :
    Except String MsgStatusRec × List SentPart :=
  match configStringValue authConf with
  | none => (Except.error "invalid auth token config", [])
  | some tok =>
    if tok = "" then (Except.error "invalid auth token config", [])
    else sendCore partOutcome dfltResp caRec msg rs

end CA

namespace P0

/-- Provider response of the JSON variant: the optional id field of the
response body; transport errors are not checked by the source, only the
presence of the id. -/
structure CAResponse where
  id : Option String
deriving DecidableEq

/-- Outcome of sendMsgPart of the JSON variant: the id field when present. -/
def partOutcome (r : CAResponse) : Option String := r.id

/-- Default failing response used when the response list is exhausted. -/
def dfltResp : CAResponse := { id := none }

/-- Media kinds with a dedicated send path in the JSON variant: only image. -/
def p0Rec (k : String) : Bool := k = "image"

/-- Embedding of SendMsg of the unnamed chatapi source file: validates
the auth token and send URL configs, then sends the text part and the
attachment parts exactly as the form-encoded variant does, with image
as the only recognized media kind. -/
def SendMsg (authConf : ConfigValue) (sendURLConf : ConfigValue) (msg : OutMsg)
    (rs : List CAResponse) : Except String MsgStatusRec × List SentPart :=
  match configStringValue authConf with
  | none => (Except.error "invalid auth token config", [])
  | some tok =>
    if tok = "" then (Except.error "invalid auth token config", [])
    else
      match configStringValue sendURLConf with
      | none => (Except.error "invalid send url config", [])
      | some sendURL =>
        if sendURL = "" then (Except.error "invalid send url config", [])
        else sendCore partOutcome dfltResp p0Rec msg rs

end P0

/-- Modelled from the spec: the outbound driver of the repository (not
in the excerpt) writes an errored status when the adapter returns an
error without a status, so a config error surfaces as an immediate
errored status. -/
def driverStatus : Except String MsgStatusRec → MsgStatusVal
  | Except.error _ => MsgStatusVal.errored
  | Except.ok r => r.status

/-- Attachments whose major media type has a dedicated send path. -/
def recognizedAtts (isRec : String → Bool) (as : List Attachment) : List Attachment :=
  as.filter fun a => isRec (mediaKind a)

theorem foldl_sendAttachment_parts {ρ : Type} (o : ρ → Option String) (dflt : ρ)
    (isRec : String → Bool) (caption : String) (as : List Attachment) (s : LoopState ρ) :
    (as.foldl (sendAttachment o dflt isRec caption) s).parts
      = s.parts ++ (recognizedAtts isRec as).map
          (fun a => SentPart.media (mediaKind a) a.url caption) := by
  induction as generalizing s with
  | nil => simp [recognizedAtts]
  | cons a as ih =>
    rw [List.foldl_cons, ih]
    by_cases h : isRec (mediaKind a)
    · simp [sendAttachment, h, recognizedAtts, List.filter_cons]
    · simp [sendAttachment, h, recognizedAtts, List.filter_cons]

theorem foldl_sendAttachment_responses {ρ : Type} (o : ρ → Option String) (dflt : ρ)
    (isRec : String → Bool) (caption : String) (as : List Attachment) (s : LoopState ρ) :
    (as.foldl (sendAttachment o dflt isRec caption) s).responses
      = s.responses.drop (recognizedAtts isRec as).length := by
  induction as generalizing s with
  | nil => simp [recognizedAtts]
  | cons a as ih =>
    rw [List.foldl_cons, ih]
    by_cases h : isRec (mediaKind a)
    · simp [sendAttachment, h, recognizedAtts, List.filter_cons, List.drop_drop]
    · simp [sendAttachment, h, recognizedAtts, List.filter_cons]

theorem peek_drop {ρ : Type} (dflt : ρ) (rs : List ρ) (k i : Nat) :
    peek dflt (rs.drop k) i = peek dflt rs (k + i) := by
  simp [peek, List.drop_drop, Nat.add_comm]

theorem foldl_sendAttachment_extID {ρ : Type} (o : ρ → Option String) (dflt : ρ)
    (isRec : String → Bool) (caption : String) (as : List Attachment) (s : LoopState ρ) :
    (as.foldl (sendAttachment o dflt isRec caption) s).extID
      = (if (recognizedAtts isRec as).length = 0 then s.extID
         else (o (peek dflt s.responses ((recognizedAtts isRec as).length - 1))).getD "") := by
  induction as using List.reverseRecOn with
  | nil => simp [recognizedAtts]
  | append_singleton as a ih =>
    rw [List.foldl_append, List.foldl_cons, List.foldl_nil]
    by_cases h : isRec (mediaKind a)
    · have hresp := foldl_sendAttachment_responses o dflt isRec caption as s
      simp [sendAttachment, h, hresp, recognizedAtts, List.filter_append, peek_drop]
    · simp only [sendAttachment, h]
      rw [ih]
      simp [recognizedAtts, List.filter_append, h]

/-- Whether the code condition for sending a separate text part holds:
non-empty text that is not being carried as the caption of a lone
attachment. -/
theorem textPartCond (msg : OutMsg) :
    (msg.text ≠ "" ∧ (if msg.attachments.length = 1 then msg.text else "") = "")
      ↔ (msg.text ≠ "" ∧ msg.attachments.length ≠ 1) := by
  by_cases h : msg.attachments.length = 1 <;> by_cases ht : msg.text = "" <;> simp [h, ht]

/-- Number of HTTP parts a send performs: the text part when text is
non-empty and the attachment count differs from one, plus one part per
recognized attachment. -/
def numParts (isRec : String → Bool) (msg : OutMsg) : Nat :=
  (if msg.text ≠ "" ∧ msg.attachments.length ≠ 1 then 1 else 0)
    + (recognizedAtts isRec msg.attachments).length

/-- External ID left on the status by a run of n HTTP parts against the
response list: empty when no part was sent, otherwise the outcome of
the response consumed by the last part, with a failed last part leaving
the empty string. -/
def lastPartExt {ρ : Type} (o : ρ → Option String) (dflt : ρ) (n : Nat) (rs : List ρ) : String :=
  if n = 0 then "" else (o (peek dflt rs (n - 1))).getD ""

/-- The parts SendMsg is specified to send, written from the spec: the
text part exactly when there is text and the attachment count differs
from one, then one part per recognized attachment in declared order,
each carrying the caption (the text when there is exactly one
attachment). -/
def partsSpec (isRec : String → Bool) (msg : OutMsg) : List SentPart :=
  let caption := if msg.attachments.length = 1 then msg.text else ""
  (if msg.text ≠ "" ∧ msg.attachments.length ≠ 1 then [SentPart.text msg.text] else [])
    ++ (recognizedAtts isRec msg.attachments).map
        (fun a => SentPart.media (mediaKind a) a.url caption)

theorem sendCore_parts {ρ : Type} (o : ρ → Option String) (dflt : ρ) (isRec : String → Bool)
    (msg : OutMsg) (rs : List ρ) :
    (sendCore o dflt isRec msg rs).2 = partsSpec isRec msg := by
  unfold sendCore partsSpec
  by_cases hc : msg.text ≠ "" ∧ (if msg.attachments.length = 1 then msg.text else "") = ""
  · have hc' := (textPartCond msg).mp hc
    simp only [if_pos hc, if_pos hc']
    rw [foldl_sendAttachment_parts]
    simp
  · have hc' : ¬(msg.text ≠ "" ∧ msg.attachments.length ≠ 1) :=
      fun hx => hc ((textPartCond msg).mpr hx)
    simp only [if_neg hc, if_neg hc']
    rw [foldl_sendAttachment_parts]

theorem sendCore_extID {ρ : Type} (o : ρ → Option String) (dflt : ρ) (isRec : String → Bool)
    (msg : OutMsg) (rs : List ρ) :
    (sendCore o dflt isRec msg rs).1.map (fun r => r.externalID)
      = Except.ok (lastPartExt o dflt (numParts isRec msg) rs) := by
  unfold sendCore
  by_cases hc : msg.text ≠ "" ∧ (if msg.attachments.length = 1 then msg.text else "") = ""
  · have hc' := (textPartCond msg).mp hc
    simp only [if_pos hc, Except.map]
    rw [foldl_sendAttachment_extID]
    rcases hk : (recognizedAtts isRec msg.attachments).length with _ | m
    · simp [lastPartExt, numParts, hc', hk]
    · simp only [lastPartExt, numParts, hc', hk, if_true, reduceIte]
      simp only [← List.drop_one, peek_drop]
      simp [hc'.1, hc'.2, Nat.add_comm]
  · have hc' : ¬(msg.text ≠ "" ∧ msg.attachments.length ≠ 1) :=
      fun hx => hc ((textPartCond msg).mpr hx)
    simp only [if_neg hc, Except.map]
    rw [foldl_sendAttachment_extID]
    rcases hk : (recognizedAtts isRec msg.attachments).length with _ | m
    · simp [lastPartExt, numParts, hc', hk]
    · simp [lastPartExt, numParts, hc', hk]

/-- Whether the second list is an initial segment of the first. -/
def startsWithL : List Char → List Char → Bool
  | _, [] => true
  | [], _ :: _ => false
  | c :: cs, p :: ps => c = p && startsWithL cs ps

/-- Drop the first occurrence of a non-empty pattern from a character
list, leaving everything else in place. -/
def dropFirstOccur (pat : List Char) : List Char → List Char
  | [] => []
  | c :: cs =>
    if startsWithL (c :: cs) pat then (c :: cs).drop pat.length
    else c :: dropFirstOccur pat cs

/-- Remove the first occurrence of a pattern from a string, as
strings.Replace with count one and an empty replacement does. -/
def replaceFirst (s pat : String) : String :=
  String.mk (dropFirstOccur pat.data s.data)

/-- Modelled from the spec: the URN canonicalizer of the external urns
library builds a whatsapp URN from the phone number and fails on an
empty path; the handler only observes success or failure. -/
def newWhatsAppURN (phone : String) : Option String :=
  if phone = "" then none else some ("whatsapp:" ++ phone)

/-- An inbound message entry of the webhook payload. -/
structure MoMessage where
  id : String
  body : String
  type : String
  senderName : String
  fromMe : Bool
  author : String
  time : Int
  chatId : String
  messageNumber : Int
  caption : String
deriving DecidableEq

/-- An acknowledgement entry of the webhook payload. -/
structure MoAck where
  id : String
  messageNumber : Int
  chatId : String
  status : String
deriving DecidableEq

/-- The decoded webhook payload of the Chat API handler. -/
structure MoPayload where
  instanceId : String
  messages : List MoMessage
  ack : List MoAck
deriving DecidableEq

/-- Modelled from the spec: the structural validation step of
DecodeAndValidateJSON of the repository handlers package (not in the
excerpt). The only constraint declared on the payload type in the
excerpt is the required tag on instanceId, and the required validator
fails on a zero value, so validation accepts the payload exactly when
instanceId is non-empty. -/
def validateMoPayload (p : MoPayload) : Bool :=
  p.instanceId ≠ ""

/-- A persisted inbound message row of the backend model. -/
structure MsgRow where
  externalID : String
  text : String
  urn : String
  attachments : List String
  contactName : String
  receivedOn : Int
deriving DecidableEq

/-- A persisted message status row of the backend model. -/
structure StatusRow where
  externalID : String
  status : MsgStatusVal
deriving DecidableEq

/-- Modelled from the spec: the backend state the handler touches. The
seen list is the external-ID dedup cache for this channel, rows the
persisted inbound messages, tasks the count of handoff enqueues emitted
by successful writes, knownOutIDs the external IDs of outgoing messages
the gateway knows, and statusRows the persisted status writes. -/
structure BackendState where
  seen : List String
  rows : List MsgRow
  tasks : Nat
  knownOutIDs : List String
  statusRows : List StatusRow
deriving DecidableEq

/-- An inbound message event under construction, as built by
NewIncomingMsg and its decorators; alreadyWritten is the mark
CheckExternalIDSeen leaves on a duplicate. -/
structure IncomingMsg where
  urn : String
  text : String
  externalID : String
  receivedOn : Int
  contactName : String
  attachments : List String
  alreadyWritten : Bool
deriving DecidableEq

/-- Modelled from the spec: CheckExternalIDSeen returns the event,
marked as already seen when the dedup cache holds its external ID. -/
def checkExternalIDSeen (st : BackendState) (ev : IncomingMsg) : IncomingMsg :=
  { ev with alreadyWritten := st.seen.contains ev.externalID }

/-- Modelled from the spec: the backend WriteMsg persists the message
and emits exactly one handoff enqueue, except that an event marked
as already seen is suppressed, yielding no new row and no new enqueue. -/
def writeMsg (st : BackendState) (ev : IncomingMsg) : BackendState :=
  if ev.alreadyWritten then st
  else
    { st with
      rows := st.rows ++ [{ externalID := ev.externalID, text := ev.text, urn := ev.urn,
                            attachments := ev.attachments, contactName := ev.contactName,
                            receivedOn := ev.receivedOn }],
      tasks := st.tasks + 1 }

/-- Modelled from the spec: WriteExternalIDSeen marks the external ID
in the dedup cache. -/
def writeExternalIDSeen (st : BackendState) (ev : IncomingMsg) : BackendState :=
  if st.seen.contains ev.externalID then st
  else { st with seen := st.seen ++ [ev.externalID] }

/-- Modelled from the spec: WriteMsgStatus persists the status row for
a known external ID and reports ErrMsgNotFound, touching nothing, for
an unknown one. none stands for ErrMsgNotFound. -/
def writeMsgStatus (st : BackendState) (extID : String) (v : MsgStatusVal) :
    Option BackendState :=
  if st.knownOutIDs.contains extID then
    some { st with statusRows := st.statusRows ++ [{ externalID := extID, status := v }] }
  else none

/-- An item of the JSON response envelope data list. -/
inductive DataItem where
  | msgReceive (externalID : String)
  | statusData (externalID : String) (status : MsgStatusVal)
  | info (s : String)
deriving DecidableEq

/-- A backend invocation, recorded in order by the handler embedding. -/
inductive BackendCall where
  | checkSeen (externalID : String)
  | writeMsgCall (externalID : String)
  | writeSeen (externalID : String)
  | writeStatusCall (externalID : String) (status : MsgStatusVal)
deriving DecidableEq

/-- The HTTP response of the handler: a 400 error envelope, a 200
ignored envelope, or a 200 data envelope. -/
inductive HandlerResult where
  | errorResp (msg : String)
  | ignoredResp (msg : String)
  | dataResp (msg : String) (data : List DataItem)
deriving DecidableEq

/-- HTTP status code of a handler result, following the response
helpers of the repository: errors are 400, ignored and data are 200. -/
def httpStatus : HandlerResult → Nat
  | .errorResp _ => 400
  | .ignoredResp _ => 200
  | .dataResp _ _ => 200

/-- Canonical status for a provider ack status string: sent and
delivered map to their canonical values, anything else stays queued. -/
def canonAckStatus (s : String) : MsgStatusVal :=
  if s = "sent" then MsgStatusVal.sent
  else if s = "delivered" then MsgStatusVal.delivered
  else MsgStatusVal.queued

/-- Build the inbound event for one webhook message, as receiveMessage
does: strip the chat suffix from the author, canonicalize the URN, take
the caption as text for an image and attach the body as media URL. -/
def buildIncoming (m : MoMessage) : Option IncomingMsg :=
  let phone := replaceFirst m.author "@c.us"
  match newWhatsAppURN phone with
  | none => none
  | some urn =>
    let text := if m.type = "image" then m.caption else m.body
    let atts := if m.type = "image" then [m.body] else []
    some { urn := urn, text := text, externalID := m.id, receivedOn := m.time,
           contactName := m.senderName, attachments := atts, alreadyWritten := false }

/-- The message loop of receiveMessage: each message not sent by us is
built, checked against the dedup cache, written, marked seen and
reported; a URN failure aborts the request with the backend effects so
far. -/
def processMessages (st : BackendState) (calls : List BackendCall) (data : List DataItem) :
    List MoMessage → Except (BackendState × List BackendCall)
                            (BackendState × List BackendCall × List DataItem)
  | [] => Except.ok (st, calls, data)
  | m :: ms =>
    if m.fromMe then processMessages st calls data ms
    else
      match buildIncoming m with
      | none => Except.error (st, calls)
      | some ev0 =>
        let ev := checkExternalIDSeen st ev0
        let st1 := writeMsg st ev
        let st2 := writeExternalIDSeen st1 ev
        processMessages st2
          (calls ++ [BackendCall.checkSeen ev.externalID,
                     BackendCall.writeMsgCall ev.externalID,
                     BackendCall.writeSeen ev.externalID])
          (data ++ [DataItem.msgReceive ev.externalID]) ms

/-- The ack loop of receiveMessage: every ack maps to its canonical
status and is written; an unknown message yields an info item and the
loop continues. -/
def processAcks (st : BackendState) (calls : List BackendCall) (data : List DataItem) :
    List MoAck → BackendState × List BackendCall × List DataItem
  | [] => (st, calls, data)
  | a :: rest =>
    let v := canonAckStatus a.status
    let calls1 := calls ++ [BackendCall.writeStatusCall a.id v]
    match writeMsgStatus st a.id v with
    | none => processAcks st calls1 (data ++ [DataItem.info "message not found, ignored"]) rest
    | some st1 => processAcks st1 calls1 (data ++ [DataItem.statusData a.id v]) rest

/-- Embedding of receiveMessage of the Chat API handler, identical in
both variants of the excerpt: structural validation, the ignore branch
for an empty instance ID, the message loop and the ack loop, ending in
the 200 data envelope. Returns the HTTP result, the final backend state
and the ordered backend call trace. -/
def receiveMessage (p : MoPayload) (st : BackendState) :
    HandlerResult × BackendState × List BackendCall :=
  if validateMoPayload p = false then (HandlerResult.errorResp "validation error", st, [])
  else if p.instanceId = "" then
    (HandlerResult.ignoredResp "Ignoring request, no message", st, [])
  else
    match processMessages st [] [] p.messages with
    | Except.error (st1, calls1) => (HandlerResult.errorResp "invalid urn", st1, calls1)
    | Except.ok (st1, calls1, data1) =>
      let r := processAcks st1 calls1 data1 p.ack
      (HandlerResult.dataResp "Events Handled" r.2.2, r.1, r.2.1)

theorem processAcks_spec (acks : List MoAck) (st : BackendState) (calls : List BackendCall)
    (data : List DataItem) :
    processAcks st calls data acks
      = ({ st with statusRows := (st.statusRows
            ++ (acks.filter fun a => st.knownOutIDs.contains a.id).map
                (fun a => { externalID := a.id, status := canonAckStatus a.status : StatusRow })) },
         calls ++ acks.map (fun a => BackendCall.writeStatusCall a.id (canonAckStatus a.status)),
         data ++ acks.map (fun a =>
           if st.knownOutIDs.contains a.id then DataItem.statusData a.id (canonAckStatus a.status)
           else DataItem.info "message not found, ignored")) := by
  induction acks generalizing st calls data with
  | nil => simp [processAcks]
  | cons a rest ih =>
    simp only [processAcks, writeMsgStatus]
    by_cases h : a.id ∈ st.knownOutIDs
    · rw [if_pos (by simpa using h)]
      simp [h, ih, List.filter_cons, List.append_assoc]
    · rw [if_neg (by simpa using h)]
      simp [h, ih, List.filter_cons, List.append_assoc]

/-- Claim C7: every ack maps to its canonical status, sent to sent and
delivered to delivered, and WriteMsgStatus is called for it; an ack
whose message is unknown yields the info item saying the message was
not found and ignored, touches no status row, and the loop continues
with the remaining acks; the response is still a 200 data envelope. -/
theorem c7_ack_processing (inst : String) (hinst : inst ≠ "") (acks : List MoAck)
    (st : BackendState) :
    canonAckStatus "sent" = MsgStatusVal.sent
  ∧ canonAckStatus "delivered" = MsgStatusVal.delivered
  ∧ receiveMessage { instanceId := inst, messages := [], ack := acks } st
      = (HandlerResult.dataResp "Events Handled"
           (acks.map fun a =>
             if st.knownOutIDs.contains a.id then
               DataItem.statusData a.id (canonAckStatus a.status)
             else DataItem.info "message not found, ignored"),
         { st with statusRows := (st.statusRows
             ++ (acks.filter fun a => st.knownOutIDs.contains a.id).map
                 (fun a => { externalID := a.id, status := canonAckStatus a.status : StatusRow })) },
         acks.map fun a => BackendCall.writeStatusCall a.id (canonAckStatus a.status))
  ∧ httpStatus (receiveMessage { instanceId := inst, messages := [], ack := acks } st).1 = 200 := by
  have heq : receiveMessage { instanceId := inst, messages := [], ack := acks } st
      = (HandlerResult.dataResp "Events Handled"
           (acks.map fun a =>
             if st.knownOutIDs.contains a.id then
               DataItem.statusData a.id (canonAckStatus a.status)
             else DataItem.info "message not found, ignored"),
         { st with statusRows := (st.statusRows
             ++ (acks.filter fun a => st.knownOutIDs.contains a.id).map
                 (fun a => { externalID := a.id, status := canonAckStatus a.status : StatusRow })) },
         acks.map fun a => BackendCall.writeStatusCall a.id (canonAckStatus a.status)) := by
    unfold receiveMessage
    rw [if_neg (by simp [validateMoPayload, hinst])]
    rw [if_neg (by simpa using hinst)]
    simp only [processMessages]
    rw [processAcks_spec]
    simp
  exact ⟨rfl, rfl, heq, by rw [heq]; rfl⟩

/-- Concrete ack list for the claim C7 witness: one known and one
unknown external ID. -/
def c7acks : List MoAck :=
  [{ id := "known1", messageNumber := 1, chatId := "chat", status := "delivered" },
   { id := "ghost", messageNumber := 2, chatId := "chat", status := "delivered" }]

/-- Concrete backend state for the claim C7 witness. -/
def c7st : BackendState :=
  { seen := [], rows := [], tasks := 0, knownOutIDs := ["known1"], statusRows := [] }

/-- Witness for claim C7: the ack-processing theorem applied to a
two-ack webhook whose second ack targets an unknown message. -/
theorem c7_ack_processing_witness :
    ("i" : String) ≠ ""
  ∧ (canonAckStatus "sent" = MsgStatusVal.sent
  ∧ canonAckStatus "delivered" = MsgStatusVal.delivered
  ∧ receiveMessage { instanceId := "i", messages := [], ack := c7acks } c7st
      = (HandlerResult.dataResp "Events Handled"
           (c7acks.map fun a =>
             if c7st.knownOutIDs.contains a.id then
               DataItem.statusData a.id (canonAckStatus a.status)
             else DataItem.info "message not found, ignored"),
         { c7st with statusRows := (c7st.statusRows
             ++ (c7acks.filter fun a => c7st.knownOutIDs.contains a.id).map
                 (fun a => { externalID := a.id, status := canonAckStatus a.status : StatusRow })) },
         c7acks.map fun a => BackendCall.writeStatusCall a.id (canonAckStatus a.status))
  ∧ httpStatus (receiveMessage { instanceId := "i", messages := [], ack := c7acks } c7st).1 = 200) :=
  ⟨by decide, c7_ack_processing "i" (by decide) c7acks c7st⟩

/-- Claim C10: an ack whose status string is neither sent nor delivered
is written with the canonical status queued for its external ID. -/
theorem c10_unknown_ack_status (a : MoAck) (h1 : a.status ≠ "sent") (h2 : a.status ≠ "delivered")
    (inst : String) (hinst : inst ≠ "") (st : BackendState)
    (hknown : st.knownOutIDs.contains a.id = true) :
    canonAckStatus a.status = MsgStatusVal.queued
  ∧ receiveMessage { instanceId := inst, messages := [], ack := [a] } st
      = (HandlerResult.dataResp "Events Handled" [DataItem.statusData a.id MsgStatusVal.queued],
         { st with statusRows := (st.statusRows
             ++ [{ externalID := a.id, status := MsgStatusVal.queued : StatusRow }]) },
         [BackendCall.writeStatusCall a.id MsgStatusVal.queued]) := by
  have hc : canonAckStatus a.status = MsgStatusVal.queued := by
    simp [canonAckStatus, h1, h2]
  refine ⟨hc, ?_⟩
  unfold receiveMessage
  rw [if_neg (by simp [validateMoPayload, hinst])]
  rw [if_neg (by simpa using hinst)]
  simp only [processMessages]
  rw [processAcks_spec]
  have hmem : a.id ∈ st.knownOutIDs := by simpa using hknown
  simp [hmem, hc]

/-- Concrete ack with an unrecognized status string for the claim C10
witness. -/
def c10ack : MoAck := { id := "m1", messageNumber := 3, chatId := "chat", status := "read" }

/-- Concrete backend state knowing the acked message for the claim C10
witness. -/
def c10st : BackendState :=
  { seen := [], rows := [], tasks := 0, knownOutIDs := ["m1"], statusRows := [] }

/-- Witness for claim C10: the unknown-status theorem applied to a
read ack for a known message. -/
theorem c10_unknown_ack_status_witness :
    c10ack.status ≠ "sent" ∧ c10ack.status ≠ "delivered" ∧ ("i" : String) ≠ ""
  ∧ c10st.knownOutIDs.contains c10ack.id = true
  ∧ (canonAckStatus c10ack.status = MsgStatusVal.queued
  ∧ receiveMessage { instanceId := "i", messages := [], ack := [c10ack] } c10st
      = (HandlerResult.dataResp "Events Handled"
           [DataItem.statusData c10ack.id MsgStatusVal.queued],
         { c10st with statusRows := (c10st.statusRows
             ++ [{ externalID := c10ack.id, status := MsgStatusVal.queued : StatusRow }]) },
         [BackendCall.writeStatusCall c10ack.id MsgStatusVal.queued])) :=
  ⟨by decide, by decide, by decide, by decide,
   c10_unknown_ack_status c10ack (by decide) (by decide) "i" (by decide) c10st (by decide)⟩

/-- Claim C5 amended: for an inbound message whose external ID is
already in the dedup cache, the handler checks the cache before the
write, still invokes WriteMsg (the suppression of the duplicate row and
enqueue happens inside the backend, not in the handler), marks the ID
seen, appends a message-receive record rather than an info record, and
responds with a 200 data envelope; the backend state is unchanged. -/
theorem c5_seen_message_behavior (inst : String) (hinst : inst ≠ "") (m : MoMessage)
    (hfm : m.fromMe = false) (urn : String)
    (hurn : newWhatsAppURN (replaceFirst m.author "@c.us") = some urn)
    (st : BackendState) (hseen : st.seen.contains m.id = true) :
    receiveMessage { instanceId := inst, messages := [m], ack := [] } st
      = (HandlerResult.dataResp "Events Handled" [DataItem.msgReceive m.id], st,
         [BackendCall.checkSeen m.id, BackendCall.writeMsgCall m.id, BackendCall.writeSeen m.id])
  ∧ httpStatus (receiveMessage { instanceId := inst, messages := [m], ack := [] } st).1 = 200 := by
  have hmem : m.id ∈ st.seen := by simpa using hseen
  have heq : receiveMessage { instanceId := inst, messages := [m], ack := [] } st
      = (HandlerResult.dataResp "Events Handled" [DataItem.msgReceive m.id], st,
         [BackendCall.checkSeen m.id, BackendCall.writeMsgCall m.id,
          BackendCall.writeSeen m.id]) := by
    unfold receiveMessage
    rw [if_neg (by simp [validateMoPayload, hinst])]
    rw [if_neg (by simpa using hinst)]
    simp only [processMessages, hfm, Bool.false_eq_true, if_false, buildIncoming, hurn]
    simp [checkExternalIDSeen, writeMsg, writeExternalIDSeen, hmem, processAcks]
  exact ⟨heq, by rw [heq]; rfl⟩

/-- Concrete payload for the claim C5 counterexample: one inbound
message whose external ID ext1 is already in the dedup cache. -/
def c5payload : MoPayload :=
  { instanceId := "inst1",
    messages := [{ id := "ext1", body := "hello", type := "chat", senderName := "Ann",
                   fromMe := false, author := "123@c.us", time := 10, chatId := "123@c.us",
                   messageNumber := 1, caption := "" }],
    ack := [] }

/-- Concrete backend state for the claim C5 counterexample, with ext1
already seen. -/
def c5st : BackendState :=
  { seen := ["ext1"], rows := [], tasks := 0, knownOutIDs := [], statusRows := [] }

/-- Counterexample to claim C5 as stated: for a seen external ID the
handler does not skip WriteMsg (the call appears in the backend trace)
and produces a message-receive record, not an info record; only the
absence of a new row and the 200 response hold. -/
theorem c5_counterexample :
    (receiveMessage c5payload c5st).2.2.contains (BackendCall.writeMsgCall "ext1") = true
  ∧ (receiveMessage c5payload c5st).1
      = HandlerResult.dataResp "Events Handled" [DataItem.msgReceive "ext1"]
  ∧ (receiveMessage c5payload c5st).2.1.rows = c5st.rows := by decide

/-- Concrete message for the claim C5 witness. -/
def c5wmsg : MoMessage :=
  { id := "ext9", body := "hi", type := "chat", senderName := "Bo", fromMe := false,
    author := "77@c.us", time := 4, chatId := "77@c.us", messageNumber := 2, caption := "" }

/-- Concrete backend state for the claim C5 witness, with ext9 seen. -/
def c5wst : BackendState :=
  { seen := ["ext9"], rows := [], tasks := 3, knownOutIDs := [], statusRows := [] }

/-- Witness for claim C5: the amended seen-message theorem applied at a
concrete already-seen inbound message. -/
theorem c5_seen_message_behavior_witness :
    ("inst2" : String) ≠ "" ∧ c5wmsg.fromMe = false
  ∧ newWhatsAppURN (replaceFirst c5wmsg.author "@c.us") = some "whatsapp:77"
  ∧ c5wst.seen.contains c5wmsg.id = true
  ∧ (receiveMessage { instanceId := "inst2", messages := [c5wmsg], ack := [] } c5wst
      = (HandlerResult.dataResp "Events Handled" [DataItem.msgReceive c5wmsg.id], c5wst,
         [BackendCall.checkSeen c5wmsg.id, BackendCall.writeMsgCall c5wmsg.id,
          BackendCall.writeSeen c5wmsg.id])
  ∧ httpStatus (receiveMessage { instanceId := "inst2", messages := [c5wmsg], ack := [] } c5wst).1
      = 200) :=
  ⟨by decide, by decide, by decide, by decide,
   c5_seen_message_behavior "inst2" (by decide) c5wmsg (by decide) "whatsapp:77"
     (by decide) c5wst (by decide)⟩

/-- Concrete payload with an empty instance ID for claim C8. -/
def c8payload : MoPayload := { instanceId := "", messages := [], ack := [] }

/-- Empty backend state. -/
def emptyBackend : BackendState :=
  { seen := [], rows := [], tasks := 0, knownOutIDs := [], statusRows := [] }

/-- Claim C8 fails on the code: a well-formed payload whose instanceId
is empty is rejected by the structural validation demanded by the
required tag, so the handler responds 400 with an error envelope, and
the explicit 200-ignored branch for an empty instance ID is unreachable
for every payload and state. -/
theorem c8_empty_instance_validation_bug :
    receiveMessage c8payload emptyBackend
      = (HandlerResult.errorResp "validation error", emptyBackend, [])
  ∧ httpStatus (receiveMessage c8payload emptyBackend).1 = 400
  ∧ ∀ (p : MoPayload) (st : BackendState) (s : String),
      (receiveMessage p st).1 ≠ HandlerResult.ignoredResp s := by
  refine ⟨by decide, by decide, ?_⟩
  intro p st s
  unfold receiveMessage
  by_cases h : p.instanceId = ""
  · simp [validateMoPayload, h]
  · rw [if_neg (by simp [validateMoPayload, h])]
    rw [if_neg h]
    rcases hpm : processMessages st [] [] p.messages with e | ok
    · simp
    · simp

/-- Claim C6: when the auth token config is missing, empty or not a
string, both SendMsg variants return immediately with the config error,
send no HTTP part, and the driver records an errored status. -/
theorem c6_invalid_auth_token (authConf : ConfigValue)
    (h : configStringValue authConf = none ∨ configStringValue authConf = some "")
    (msg : OutMsg) (rs : List CA.TGResponse)
    (sendURLConf : ConfigValue) (rs0 : List P0.CAResponse) :
    CA.SendMsg authConf msg rs = (Except.error "invalid auth token config", [])
  ∧ P0.SendMsg authConf sendURLConf msg rs0 = (Except.error "invalid auth token config", [])
  ∧ driverStatus (CA.SendMsg authConf msg rs).1 = MsgStatusVal.errored
  ∧ driverStatus (P0.SendMsg authConf sendURLConf msg rs0).1 = MsgStatusVal.errored := by
  refine ⟨?_, ?_, ?_, ?_⟩ <;>
    rcases h with h | h <;>
      simp [CA.SendMsg, P0.SendMsg, h, driverStatus]

/-- Concrete message for send-side witnesses. -/
def c6msg : OutMsg :=
  { text := "hello", attachments := [], quickReplies := [], urnPath := "123" }

/-- Witness for claim C6: the config-error theorem applied to a
non-string auth token config. -/
theorem c6_invalid_auth_token_witness :
    (configStringValue ConfigValue.notStr = none
      ∨ configStringValue ConfigValue.notStr = some "")
  ∧ (CA.SendMsg ConfigValue.notStr c6msg [] = (Except.error "invalid auth token config", [])
  ∧ P0.SendMsg ConfigValue.notStr (ConfigValue.str "u") c6msg []
      = (Except.error "invalid auth token config", [])
  ∧ driverStatus (CA.SendMsg ConfigValue.notStr c6msg []).1 = MsgStatusVal.errored
  ∧ driverStatus (P0.SendMsg ConfigValue.notStr (ConfigValue.str "u") c6msg []).1
      = MsgStatusVal.errored) :=
  ⟨Or.inl rfl,
   c6_invalid_auth_token ConfigValue.notStr (Or.inl rfl) c6msg [] (ConfigValue.str "u") []⟩

/-- Claim C9 amended: with a valid configuration, the parts sent by
SendMsg are the text part exactly when the text is non-empty and the
attachment count differs from one, followed by one part per attachment
with a recognized media kind in declared order; attachments with other
media kinds yield no HTTP part. -/
theorem c9_parts_split (authConf : ConfigValue) (tok : String)
    (ha : configStringValue authConf = some tok) (htok : tok ≠ "")
    (sendURLConf : ConfigValue) (u : String)
    (hu : configStringValue sendURLConf = some u) (hune : u ≠ "")
    (msg : OutMsg) (rs : List CA.TGResponse) (rs0 : List P0.CAResponse) :
    (CA.SendMsg authConf msg rs).2 = partsSpec CA.caRec msg
  ∧ (P0.SendMsg authConf sendURLConf msg rs0).2 = partsSpec P0.p0Rec msg := by
  constructor
  · have h1 := sendCore_parts CA.partOutcome CA.dfltResp CA.caRec msg rs
    simp only [CA.SendMsg, ha, htok]
    simpa [htok] using h1
  · have h1 := sendCore_parts P0.partOutcome P0.dfltResp P0.p0Rec msg rs0
    simp only [P0.SendMsg, ha, htok, hu, hune]
    simpa [htok, hune] using h1

deriving instance DecidableEq for Except

/-- Concrete message for the claim C9 counterexample: no text and one
attachment with an unrecognized media type. -/
def c9msg : OutMsg :=
  { text := "", attachments := [{ mediaType := "application/pdf", url := "u1" }],
    quickReplies := [], urnPath := "123" }

/-- Counterexample to claim C9 as stated: a message with exactly one
attachment, of media type application/pdf, produces no HTTP part at all
in either variant, though the claim demands one part per attachment. -/
theorem c9_counterexample :
    (CA.SendMsg (ConfigValue.str "tok") c9msg []).2 = []
  ∧ (P0.SendMsg (ConfigValue.str "tok") (ConfigValue.str "u") c9msg []).2 = []
  ∧ c9msg.attachments.length = 1 := by decide

/-- Concrete message for the claim C9 witness: text plus a recognized
and an unrecognized attachment. -/
def c9wmsg : OutMsg :=
  { text := "hi",
    attachments := [{ mediaType := "image/jpeg", url := "u1" },
                    { mediaType := "application/pdf", url := "u2" }],
    quickReplies := [], urnPath := "123" }

/-- Witness for claim C9: the amended parts theorem applied at a
concrete message; the parts evaluate to the text part followed by the
lone image part. -/
theorem c9_parts_split_witness :
    configStringValue (ConfigValue.str "tok") = some "tok" ∧ ("tok" : String) ≠ ""
  ∧ configStringValue (ConfigValue.str "u") = some "u" ∧ ("u" : String) ≠ ""
  ∧ ((CA.SendMsg (ConfigValue.str "tok") c9wmsg []).2 = partsSpec CA.caRec c9wmsg
  ∧ (P0.SendMsg (ConfigValue.str "tok") (ConfigValue.str "u") c9wmsg []).2
      = partsSpec P0.p0Rec c9wmsg)
  ∧ partsSpec CA.caRec c9wmsg = [SentPart.text "hi", SentPart.media "image" "u1" ""] :=
  ⟨rfl, by decide, rfl, by decide,
   c9_parts_split (ConfigValue.str "tok") "tok" rfl (by decide)
     (ConfigValue.str "u") "u" rfl (by decide) c9wmsg [] [],
   by decide⟩

/-- Claim C4 amended: with a valid configuration, the external ID on
the returned status is the one returned by the last HTTP part: the
provider ID when that last send succeeded, the empty string when it
failed or when no HTTP part was sent; attachments with unrecognized
media kinds do not touch it. -/
theorem c4_external_id_last_part (authConf : ConfigValue) (tok : String)
    (ha : configStringValue authConf = some tok) (htok : tok ≠ "")
    (sendURLConf : ConfigValue) (u : String)
    (hu : configStringValue sendURLConf = some u) (hune : u ≠ "")
    (msg : OutMsg) (rs : List CA.TGResponse) (rs0 : List P0.CAResponse) :
    (CA.SendMsg authConf msg rs).1.map (fun r => r.externalID)
      = Except.ok (lastPartExt CA.partOutcome CA.dfltResp (numParts CA.caRec msg) rs)
  ∧ (P0.SendMsg authConf sendURLConf msg rs0).1.map (fun r => r.externalID)
      = Except.ok (lastPartExt P0.partOutcome P0.dfltResp (numParts P0.p0Rec msg) rs0) := by
  constructor
  · have h1 := sendCore_extID CA.partOutcome CA.dfltResp CA.caRec msg rs
    simp only [CA.SendMsg, ha, htok]
    simpa [htok] using h1
  · have h1 := sendCore_extID P0.partOutcome P0.dfltResp P0.p0Rec msg rs0
    simp only [P0.SendMsg, ha, htok, hu, hune]
    simpa [htok, hune] using h1

/-- Concrete message for the claim C4 counterexample: text and two
image attachments, three HTTP parts. -/
def c4msg : OutMsg :=
  { text := "hi",
    attachments := [{ mediaType := "image", url := "u1" },
                    { mediaType := "image", url := "u2" }],
    quickReplies := [], urnPath := "123" }

/-- Responses for the claim C4 counterexample: the first two parts
succeed with IDs 7 and 8, the last part fails. -/
def c4resps : List CA.TGResponse :=
  [{ ok := true, messageID := some 7 }, { ok := true, messageID := some 8 },
   { ok := false, messageID := none }]

/-- Counterexample to claim C4 as stated: the run has successful parts,
whose most recent external ID is 8, yet the returned status carries the
empty external ID, because the failed last part overwrote it. -/
theorem c4_counterexample :
    (CA.SendMsg (ConfigValue.str "tok") c4msg c4resps).1
      = Except.ok { status := MsgStatusVal.errored, externalID := "" }
  ∧ (c4resps.filterMap CA.partOutcome).getLast? = some "8"
  ∧ ("" : String) ≠ "8" := by decide

/-- Concrete responses for the claim C4 witness: all three parts
succeed, the last with ID 9. -/
def c4wresps : List CA.TGResponse :=
  [{ ok := true, messageID := some 7 }, { ok := true, messageID := some 8 },
   { ok := true, messageID := some 9 }]

/-- Witness for claim C4: the amended external-ID theorem applied at a
concrete message, where the last part succeeded with ID 9. -/
theorem c4_external_id_last_part_witness :
    configStringValue (ConfigValue.str "tok") = some "tok" ∧ ("tok" : String) ≠ ""
  ∧ configStringValue (ConfigValue.str "u") = some "u" ∧ ("u" : String) ≠ ""
  ∧ ((CA.SendMsg (ConfigValue.str "tok") c4msg c4wresps).1.map (fun r => r.externalID)
      = Except.ok (lastPartExt CA.partOutcome CA.dfltResp (numParts CA.caRec c4msg) c4wresps)
  ∧ (P0.SendMsg (ConfigValue.str "tok") (ConfigValue.str "u") c4msg []).1.map
        (fun r => r.externalID)
      = Except.ok (lastPartExt P0.partOutcome P0.dfltResp (numParts P0.p0Rec c4msg) []))
  ∧ lastPartExt CA.partOutcome CA.dfltResp (numParts CA.caRec c4msg) c4wresps = "9" :=
  ⟨rfl, by decide, rfl, by decide,
   c4_external_id_last_part (ConfigValue.str "tok") "tok" rfl (by decide)
     (ConfigValue.str "u") "u" rfl (by decide) c4msg c4wresps [],
   by decide⟩

/-- Concrete message for claim C1: text and two image attachments. -/
def c1msg : OutMsg :=
  { text := "hello",
    attachments := [{ mediaType := "image", url := "u1" },
                    { mediaType := "image", url := "u2" }],
    quickReplies := [], urnPath := "123" }

/-- Responses for claim C1 in the form-encoded variant: the text part
fails, both attachment parts succeed. -/
def c1resps : List CA.TGResponse :=
  [{ ok := false, messageID := none }, { ok := true, messageID := some 7 },
   { ok := true, messageID := some 8 }]

/-- Responses for claim C1 in the JSON variant: the text part fails,
both attachment parts succeed. -/
def c1resps0 : List P0.CAResponse :=
  [{ id := none }, { id := some "a" }, { id := some "b" }]

/-- Claim C1 fails on the code: both variants send three parts of which
the first fails, yet the returned status is wired, because each part
overwrites the error flag and only the last part counts, contradicting
the aggregation the claim and the comment of the source describe. -/
theorem c1_status_overwritten_bug :
    (CA.SendMsg (ConfigValue.str "tok") c1msg c1resps).1
      = Except.ok { status := MsgStatusVal.wired, externalID := "8" }
  ∧ (CA.SendMsg (ConfigValue.str "tok") c1msg c1resps).2.length = 3
  ∧ c1resps.any (fun r => (CA.partOutcome r).isNone) = true
  ∧ (P0.SendMsg (ConfigValue.str "tok") (ConfigValue.str "u") c1msg c1resps0).1
      = Except.ok { status := MsgStatusVal.wired, externalID := "b" }
  ∧ (P0.SendMsg (ConfigValue.str "tok") (ConfigValue.str "u") c1msg c1resps0).2.length = 3
  ∧ c1resps0.any (fun r => (P0.partOutcome r).isNone) = true := by decide
